import Mathlib

/-!
Verification of the Auto-Shorts clip-selection and caption pipeline.

The definitions below are a shallow embedding of the Python sources:
  - `backend/services/analysis.py` (`ContentAnalyzer.detect_high_energy_moments`)
  - `backend/api/routes/process.py` (`process_video`: moment reconciliation,
    style-string construction, per-clip render loop)
  - `backend/services/video_processing.py`
    (`VideoProcessor.generate_word_level_srt`, `STYLE_MAP`)

Python floats are modelled as rationals (`ℚ`), Python ints as `ℤ` (or `ℕ`
for loop counters), exceptions of external calls as `Option`/oracle
parameters, and mutable lists as functional values.
-/

/-- A candidate or selected clip window, modelling the Python dicts produced by
the AI analyzer (`analyze_transcript`) and by `detect_high_energy_moments`.
Optional fields model keys that may be absent from the dict. -/
structure Moment where
  start : ℚ
  stop : ℚ
  score : Option ℚ
  reason : Option String
  title : Option String
  description : Option String
  hashtags : List String
deriving DecidableEq, Repr

/-- Python `range(n)` for an `int` that may be negative (empty in that case). -/
def pyRange (n : ℤ) : List ℕ := List.range n.toNat

/-- Python list slice `l[:n]` for an `int` bound `n` (negative bounds count
from the end of the list). -/
def pySlice (l : List α) (n : ℤ) : List α :=
  if 0 ≤ n then l.take n.toNat else l.take ((l.length : ℤ) + n).toNat

/-- `ContentAnalyzer.detect_high_energy_moments` (analysis.py lines 74-112),
with the external `get_video_duration` probe abstracted into the `duration`
argument.  `if not duration` is Python truthiness on a float: the guard fires
exactly when `duration = 0`. -/
def detect_high_energy_moments (duration : ℚ) (num_clips : ℤ)
    (clip_duration : ℤ) : List Moment :=
  if duration = 0 then []
  else if duration ≤ (clip_duration : ℚ) then
    [{ start := 0, stop := duration, score := some 1,
       reason := some "Full video (short)",
       title := none, description := none, hashtags := [] }]
  else
    let available0 : ℚ := duration - (clip_duration : ℚ)
    let available : ℚ := if available0 ≤ 0 then 0 else available0
    let step : ℚ := if 0 < num_clips then available / ((num_clips : ℚ) + 1) else 0
    (pyRange num_clips).map (fun (i : ℕ) =>
      let start0 : ℚ := step * ((i : ℚ) + 1)
      let start : ℚ :=
        if duration < start0 + (clip_duration : ℚ) then
          max 0 (duration - (clip_duration : ℚ))
        else start0
      { start := start, stop := start + (clip_duration : ℚ),
        score := some (4/5),
        reason := some ("Heuristic segment " ++ toString (i + 1) ++ " (Fallback)"),
        title := none, description := none, hashtags := [] })

/-- `is_overlapping` from `process_video` (process.py lines 195-200): a new
moment overlaps the accepted set when some accepted start is strictly within
10 seconds of its start. -/
def is_overlapping (new_m : Moment) (existing_ms : List Moment) : Bool :=
  existing_ms.any (fun ex => |new_m.start - ex.start| < 10)

/-- The backfill loop of `process_video` (process.py lines 202-210): walk the
heuristic candidates in order, appending each non-overlapping one (tagged
"Heuristic Backfill") until `needed` more have been added or the candidates
run out.  `needed` is the remaining shortfall (`added_count >= needed` is the
loop's break test, here `needed ≤ 0`). -/
def backfill : List Moment → List Moment → ℤ → List Moment
  | moments, [], _ => moments
  | moments, hm :: rest, needed =>
    if needed ≤ 0 then moments
    else if is_overlapping hm moments then backfill moments rest needed
    else
      backfill (moments ++ [{ hm with reason := some "Heuristic Backfill" }])
        rest (needed - 1)

/-- `moments.sort(key=lambda x: x["start"])` (process.py line 213). -/
def sortByStart (l : List Moment) : List Moment :=
  l.mergeSort (fun a b => a.start ≤ b.start)

/-- The moment reconciliation of `process_video` (process.py lines 167-213):
heuristic fallback when the AI produced nothing, truncation when it produced
too many, and overlap-filtered heuristic backfill (followed by a sort by
start) when it produced too few.  The heuristic generator's external duration
probe is abstracted into the `duration` argument; both heuristic calls use
the same video, hence the same duration. -/
def select_moments (ai_moments : List Moment) (num_shorts : ℤ)
    (duration : ℚ) (clip_duration : ℤ) : List Moment :=
  let moments :=
    if ai_moments.isEmpty then
      detect_high_energy_moments duration num_shorts clip_duration
    else ai_moments
  if num_shorts < (moments.length : ℤ) then pySlice moments num_shorts
  else if (moments.length : ℤ) < num_shorts then
    let heuristic_moments :=
      detect_high_energy_moments duration (num_shorts * 2) clip_duration
    let needed : ℤ := num_shorts - (moments.length : ℤ)
    sortByStart (backfill moments heuristic_moments needed)
  else moments

/-- A word-level token from the transcription backend (`words` entries of a
Whisper `verbose_json` segment). -/
structure Word where
  word : String
  start : ℚ
  stop : ℚ
deriving DecidableEq, Repr

/-- A transcript segment.  `words := none` models a segment dict that carries
no `"words"` key at all. -/
structure Segment where
  text : String
  start : ℚ
  stop : ℚ
  words : Option (List Word)
deriving DecidableEq, Repr

/-- The flattening step of `generate_word_level_srt` (video_processing.py
lines 164-174): extend with the segment's words when the `"words"` key is
present, otherwise treat the whole segment as a single pseudo-word carrying
the segment's own text, start and end. -/
def flatten_words (segments : List Segment) : List Word :=
  segments.flatMap (fun seg =>
    match seg.words with
    | some ws => ws
    | none => [{ word := seg.text, start := seg.start, stop := seg.stop }])

/-- Python `str.strip()`: remove whitespace from both ends. -/
def pyStrip (s : String) : String :=
  String.mk (((s.data.dropWhile Char.isWhitespace).reverse.dropWhile
    Char.isWhitespace).reverse)

/-- The per-word loop of `generate_word_level_srt` (video_processing.py lines
181-197): shift by the clip's start offset, drop words entirely before the
clip (`w_end < 0`), clamp a negative relative start to `0`, strip the text.
An entry is `(relative start, relative end, text)`. -/
def build_entries (all_words : List Word) (start_offset : ℚ) :
    List (ℚ × ℚ × String) :=
  all_words.filterMap (fun w =>
    let w_start := w.start - start_offset
    let w_end := w.stop - start_offset
    let text := pyStrip w.word
    if w_end < 0 then none
    else some (if w_start < 0 then (0 : ℚ) else w_start, w_end, text))

/-- The SRT writing loop of `generate_word_level_srt` (video_processing.py
lines 199-204): each entry is emitted with the value of a counter that starts
at 1 and increments per entry. -/
def write_entries (counter : ℕ) : List (ℚ × ℚ × String) → List (ℕ × ℚ × ℚ × String)
  | [] => []
  | e :: rest => (counter, e) :: write_entries (counter + 1) rest

/-- `VideoProcessor.generate_word_level_srt` (video_processing.py lines
144-206) up to serialization: the sequence of numbered cues written to the
SRT file. -/
def generate_word_level_srt (segments : List Segment) (start_offset : ℚ) :
    List (ℕ × ℚ × ℚ × String) :=
  write_entries 1 (build_entries (flatten_words segments) start_offset)

/-- `STYLE_MAP` from video_processing.py lines 10-16, as an association list
(keys are distinct, so lookup order is irrelevant). -/
def STYLE_MAP : List (String × String) :=
  [("Karaoke", "Alignment=10,Fontname=Nirmala UI,Fontsize=30,PrimaryColour=&H00FF00&,OutlineColour=&H000000&,BorderStyle=1,Outline=1,Shadow=0,MarginV=20"),
   ("Deep Diver", "Alignment=10,Fontname=Nirmala UI,Fontsize=30,PrimaryColour=&HFFFFFF&,BorderStyle=3,Outline=1,Shadow=0,MarginV=20"),
   ("Mozi", "Alignment=10,Fontname=Nirmala UI,Fontsize=30,PrimaryColour=&HFF00FF&,OutlineColour=&HFFFF00&,BorderStyle=1,Outline=2,Shadow=0,MarginV=20"),
   ("Glitch", "Alignment=10,Fontname=Nirmala UI,Fontsize=30,PrimaryColour=&H0000FF&,OutlineColour=&H00FFFF&,BorderStyle=1,Outline=1,Shadow=1,MarginV=20"),
   ("Classic", "Alignment=10,Fontname=Nirmala UI,Fontsize=30,PrimaryColour=&HFFFFFF&,OutlineColour=&H000000&,BorderStyle=1,Outline=1,Shadow=0,MarginV=20")]

/-- `STYLE_MAP.get(name, STYLE_MAP["Classic"])` (process.py line 243). -/
def styleMapGet (name : String) : String :=
  (STYLE_MAP.lookup name).getD
    "Alignment=10,Fontname=Nirmala UI,Fontsize=30,PrimaryColour=&HFFFFFF&,OutlineColour=&H000000&,BorderStyle=1,Outline=1,Shadow=0,MarginV=20"

/-- Character class `[0-9]` (regex `\d`). -/
def isDigitChar (c : Char) : Bool := '0' ≤ c && c ≤ '9'

/-- Character class `[0-9A-Fa-f]`. -/
def isHexChar (c : Char) : Bool :=
  isDigitChar c || ('a' ≤ c && c ≤ 'f') || ('A' ≤ c && c ≤ 'F')

/-- Drop an exact literal from the head of a list, or fail. -/
def dropLit : List Char → List Char → Option (List Char)
  | [], s => some s
  | _ :: _, [] => none
  | p :: ps, c :: cs => if p = c then dropLit ps cs else none

/-- Try to match, at the head of `s`, the regex `lit · κ+ · tail` (a literal,
a maximal nonempty run of class-`κ` characters, a trailing literal).  This is
the shape of every pattern the style code feeds to `re.sub`; for these
patterns greedy matching with backtracking coincides with taking the maximal
run.  Returns the remainder of `s` after the match. -/
def matchPat (lit : List Char) (κ : Char → Bool) (tail : List Char)
    (s : List Char) : Option (List Char) :=
  match dropLit lit s with
  | none => none
  | some s1 =>
    let run := s1.takeWhile κ
    if run.isEmpty then none else dropLit tail (s1.dropWhile κ)

/-- `re.sub` for patterns of the above shape: scan left to right, replace each
non-overlapping match by `repl`, resume after the match.  `fuel` bounds the
recursion; every step consumes at least one character, so fuel equal to the
input length is exact. -/
def reSubAux (lit : List Char) (κ : Char → Bool) (tail repl : List Char) :
    ℕ → List Char → List Char
  | _, [] => []
  | 0, s => s
  | fuel + 1, c :: s =>
    match matchPat lit κ tail (c :: s) with
    | some rest => repl ++ reSubAux lit κ tail repl fuel rest
    | none => c :: reSubAux lit κ tail repl fuel s

/-- String-level `re.sub` for a `lit · κ+ · tail` pattern. -/
def reSub (lit : String) (κ : Char → Bool) (tail repl s : String) : String :=
  String.mk (reSubAux lit.data κ tail.data repl.data s.data.length s.data)

/-- Python `str.lstrip('#')`: drop every leading `'#'`. -/
def pyLstripHash (s : String) : List Char := s.data.dropWhile (fun c => c == '#')

/-- The `custom_color` branch of `process_video` (process.py lines 246-255):
with a 6-digit color `RRGGBB` (after stripping leading `#`), replace the
`PrimaryColour` field by `&HBBGGRR&`; otherwise leave the style unchanged.
The `if request.custom_color` truthiness makes an empty string a no-op. -/
def applyCustomColor (custom_color : Option String) (final_style : String) : String :=
  match custom_color with
  | none => final_style
  | some cc =>
    if cc.data.isEmpty then final_style
    else
      let hex_color := pyLstripHash cc
      if hex_color.length = 6 then
        let r := hex_color.take 2
        let g := (hex_color.drop 2).take 2
        let b := (hex_color.drop 4).take 2
        reSub "PrimaryColour=&H" isHexChar "&"
          (String.mk ("PrimaryColour=&H".data ++ b ++ g ++ r ++ ['&']))
          final_style
      else final_style

/-- The `custom_bg_color` branch of `process_video` (process.py lines
257-269): with a 6-digit color, force `BorderStyle=3`, force `Shadow=0`, and
replace the `OutlineColour` field by the byte-reversed color. -/
def applyCustomBgColor (custom_bg_color : Option String) (final_style : String) : String :=
  match custom_bg_color with
  | none => final_style
  | some cbg =>
    if cbg.data.isEmpty then final_style
    else
      let hex_bg := pyLstripHash cbg
      if hex_bg.length = 6 then
        let r := hex_bg.take 2
        let g := (hex_bg.drop 2).take 2
        let b := (hex_bg.drop 4).take 2
        let s1 := reSub "BorderStyle=" isDigitChar "" "BorderStyle=3" final_style
        let s2 := reSub "Shadow=" isDigitChar "" "Shadow=0" s1
        reSub "OutlineColour=&H" isHexChar "&"
          (String.mk ("OutlineColour=&H".data ++ b ++ g ++ r ++ ['&'])) s2
      else final_style

/-- The `custom_size` branch of `process_video` (process.py lines 271-272);
`if request.custom_size` truthiness makes `0` a no-op. -/
def applyCustomSize (custom_size : Option ℤ) (final_style : String) : String :=
  match custom_size with
  | none => final_style
  | some sz =>
    if sz = 0 then final_style
    else reSub "Fontsize=" isDigitChar "" ("Fontsize=" ++ toString sz) final_style

/-- The whole style-string construction of `process_video` (process.py lines
242-272): preset lookup with Classic fallback, then the three override
branches in order. -/
def buildFinalStyle (caption_style : String) (custom_color custom_bg_color : Option String)
    (custom_size : Option ℤ) : String :=
  applyCustomSize custom_size
    (applyCustomBgColor custom_bg_color
      (applyCustomColor custom_color (styleMapGet caption_style)))

/-- `Path(p).name`: the last path component. -/
def pyPathName (s : String) : String := (s.splitOn "/").getLastD ""

/-- The clip metadata dict appended to `generated_clips` on a successful cut
(process.py lines 294-303), with the dict `.get` defaults. -/
structure ClipResult where
  path : String
  url : String
  reason : String
  start : ℚ
  stop : ℚ
  title : String
  description : String
  hashtags : List String
deriving DecidableEq, Repr

/-- Assemble one `generated_clips` entry for clip index `i` (0-based, as in
`enumerate`) from its moment and the path returned by `cut_video`. -/
def mkClipResult (i : ℕ) (m : Moment) (final_path : String) : ClipResult :=
  { path := final_path,
    url := "/static/" ++ pyPathName final_path,
    reason := m.reason.getD "AI Selected",
    start := m.start,
    stop := m.stop,
    title := m.title.getD ("Clip " ++ toString (i + 1)),
    description := m.description.getD "",
    hashtags := m.hashtags }

/-- The subtitle argument passed to `cut_video` for clip `i` (process.py lines
227-240): the SRT path when there are segments and the SRT generation did not
raise (`srt_ok i` is the oracle for the inner `try`), else `None`. -/
def subtitleArg (file_id : String) (segments : List Segment) (srt_ok : ℕ → Bool)
    (i : ℕ) : Option String :=
  if ¬ segments.isEmpty ∧ srt_ok i then
    some (file_id ++ "_short_" ++ toString (i + 1) ++ ".srt")
  else none

/-- The per-clip rendering loop of `process_video` (process.py lines 215-308).
`cut` is the oracle for the external `cut_video` call: `some path` on
success, `none` when it raises (the outer `except` then skips the append and
the loop continues with the next moment). -/
def process_clips_go (file_id : String) (segments : List Segment)
    (srt_ok : ℕ → Bool)
    (cut : ℕ → Moment → Option String → String → Option String)
    (final_style : String) : ℕ → List Moment → List ClipResult
  | _, [] => []
  | i, m :: rest =>
    match cut i m (subtitleArg file_id segments srt_ok i) final_style with
    | some final_path =>
      mkClipResult i m final_path ::
        process_clips_go file_id segments srt_ok cut final_style (i + 1) rest
    | none => process_clips_go file_id segments srt_ok cut final_style (i + 1) rest

/-- The full per-clip rendering stage: style construction (identical for every
clip) plus the loop over `enumerate(moments)`. -/
def process_clips (file_id : String) (segments : List Segment)
    (srt_ok : ℕ → Bool)
    (cut : ℕ → Moment → Option String → String → Option String)
    (caption_style : String) (custom_color custom_bg_color : Option String)
    (custom_size : Option ℤ) (moments : List Moment) : List ClipResult :=
  process_clips_go file_id segments srt_ok cut
    (buildFinalStyle caption_style custom_color custom_bg_color custom_size) 0 moments

/-! ### Shared helper lemmas -/

theorem detect_zero (n c : ℤ) : detect_high_energy_moments 0 n c = [] := by
  unfold detect_high_energy_moments
  rw [if_pos rfl]

theorem detect_short {d : ℚ} (n c : ℤ) (hd : d ≠ 0) (hc : d ≤ (c:ℚ)) :
    detect_high_energy_moments d n c
      = [{ start := 0, stop := d, score := some 1,
           reason := some "Full video (short)",
           title := none, description := none, hashtags := [] }] := by
  unfold detect_high_energy_moments
  rw [if_neg hd, if_pos hc]

theorem detect_long {d : ℚ} {n : ℤ} (c : ℤ) (hd : d ≠ 0) (hcd : (c:ℚ) < d)
    (hn : 0 < n) :
    detect_high_energy_moments d n c
      = (pyRange n).map (fun i =>
          { start := if d < (d - (c:ℚ)) / ((n:ℚ) + 1) * ((i:ℚ) + 1) + (c:ℚ)
                     then max 0 (d - (c:ℚ))
                     else (d - (c:ℚ)) / ((n:ℚ) + 1) * ((i:ℚ) + 1),
            stop := (if d < (d - (c:ℚ)) / ((n:ℚ) + 1) * ((i:ℚ) + 1) + (c:ℚ)
                     then max 0 (d - (c:ℚ))
                     else (d - (c:ℚ)) / ((n:ℚ) + 1) * ((i:ℚ) + 1)) + (c:ℚ),
            score := some (4/5),
            reason := some ("Heuristic segment " ++ toString (i + 1) ++ " (Fallback)"),
            title := none, description := none, hashtags := [] }) := by
  have hle : ¬ d ≤ (c:ℚ) := not_le.mpr hcd
  have hav : ¬ (d - (c:ℚ) ≤ 0) := by linarith
  unfold detect_high_energy_moments
  rw [if_neg hd, if_neg hle]
  simp only [if_neg hav, if_pos hn]

theorem sortByStart_perm (l : List Moment) : (sortByStart l).Perm l :=
  List.mergeSort_perm l _

theorem mem_sortByStart {x : Moment} {l : List Moment} :
    x ∈ sortByStart l ↔ x ∈ l :=
  (sortByStart_perm l).mem_iff

theorem length_sortByStart (l : List Moment) :
    (sortByStart l).length = l.length :=
  (sortByStart_perm l).length_eq

theorem sortByStart_single (a : Moment) : sortByStart [a] = [a] := by
  simp [sortByStart]

/-! ### Claim C6 -/

/-- Claim C6, counterexample: at total duration 0 (which the generator's
`if not duration` truthiness guard treats as "no duration"), with
clip duration 60 the hypotheses of the claim hold (0 ≤ 60) yet the generator
returns no moment at all instead of one moment spanning the video. -/
theorem claim_C6_counterexample :
    (0:ℚ) ≤ ((60:ℤ):ℚ) ∧ detect_high_energy_moments 0 4 60 = [] :=
  ⟨by norm_num, detect_zero 4 60⟩

/-- Claim C6 (amended): for every total duration d ≠ 0 and clip duration c
with d ≤ c, and any requested clip count, the heuristic generator returns
exactly one moment spanning [0, d] with score 1.0 and reason
"Full video (short)".  (At d = 0 the `if not duration` guard returns the
empty list instead.) -/
theorem claim_C6_thm (d : ℚ) (n c : ℤ) (hd : d ≠ 0) (hc : d ≤ (c:ℚ)) :
    detect_high_energy_moments d n c
      = [{ start := 0, stop := d, score := some 1,
           reason := some "Full video (short)",
           title := none, description := none, hashtags := [] }] :=
  detect_short n c hd hc

/-- Concrete instantiation of `claim_C6_thm` at d = 30, n = 4, c = 60. -/
theorem claim_C6_thm_witness :
    (30:ℚ) ≠ 0 ∧ (30:ℚ) ≤ ((60:ℤ):ℚ) ∧
      detect_high_energy_moments 30 4 60
        = [{ start := 0, stop := 30, score := some 1,
             reason := some "Full video (short)",
             title := none, description := none, hashtags := [] }] :=
  ⟨by norm_num, by norm_num, claim_C6_thm 30 4 60 (by norm_num) (by norm_num)⟩

/-! ### Claim C5 -/

/-- Claim C5, counterexample: d = 0, c = -1, n = 1 satisfy the claim's
hypotheses d > c and n ≥ 1, yet the generator returns no moments (the
`if not duration` guard) instead of exactly one. -/
theorem claim_C5_counterexample :
    (((-1:ℤ)):ℚ) < (0:ℚ) ∧ (1:ℤ) ≥ 1 ∧
      detect_high_energy_moments 0 1 (-1) = [] :=
  ⟨by norm_num, le_refl 1, detect_zero 1 (-1)⟩

/-- Claim C5 (amended): for every total duration d with d ≠ 0, clip duration
c with d > c, and clip count n ≥ 1, the generator returns exactly n moments,
each of duration exactly c with start ≥ 0 and start + c ≤ d and score 0.8,
where the i-th start is step·(i+1) for step = (d − c)/(n + 1), clamped to
max(0, d − c) exactly when step·(i+1) + c would overrun d, with reason
"Heuristic segment {i+1} (Fallback)".  (At d = 0 the guard returns [].) -/
theorem claim_C5_thm (d : ℚ) (n c : ℤ) (hd : d ≠ 0) (hcd : (c:ℚ) < d)
    (hn : 1 ≤ n) :
    (((detect_high_energy_moments d n c).length : ℤ) = n) ∧
    (∀ m ∈ detect_high_energy_moments d n c,
       m.stop = m.start + (c:ℚ) ∧ 0 ≤ m.start ∧ m.start + (c:ℚ) ≤ d ∧
       m.score = some (4/5)) ∧
    (∀ i : ℕ, (i:ℤ) < n →
       (detect_high_energy_moments d n c)[i]?
         = some { start := if d < (d - (c:ℚ)) / ((n:ℚ) + 1) * ((i:ℚ) + 1) + (c:ℚ)
                           then max 0 (d - (c:ℚ))
                           else (d - (c:ℚ)) / ((n:ℚ) + 1) * ((i:ℚ) + 1),
                  stop := (if d < (d - (c:ℚ)) / ((n:ℚ) + 1) * ((i:ℚ) + 1) + (c:ℚ)
                           then max 0 (d - (c:ℚ))
                           else (d - (c:ℚ)) / ((n:ℚ) + 1) * ((i:ℚ) + 1)) + (c:ℚ),
                  score := some (4/5),
                  reason := some ("Heuristic segment " ++ toString (i + 1)
                                   ++ " (Fallback)"),
                  title := none, description := none, hashtags := [] }) := by
  have hn0 : (0:ℤ) < n := lt_of_lt_of_le one_pos hn
  have hdet := detect_long c hd hcd hn0
  have hnq : (1:ℚ) ≤ (n:ℚ) := by exact_mod_cast hn
  have hstep : (0:ℚ) ≤ (d - (c:ℚ)) / ((n:ℚ) + 1) :=
    div_nonneg (by linarith) (by linarith)
  refine ⟨?_, ?_, ?_⟩
  · rw [hdet]
    simp only [List.length_map, pyRange, List.length_range]
    omega
  · rw [hdet]
    intro m hm
    rw [List.mem_map] at hm
    obtain ⟨i, _, rfl⟩ := hm
    have hi1 : (0:ℚ) ≤ (i:ℚ) + 1 := by positivity
    refine ⟨rfl, ?_, ?_, rfl⟩
    · split_ifs with hcl
      · exact le_max_left 0 (d - (c:ℚ))
      · exact mul_nonneg hstep hi1
    · split_ifs with hcl
      · rw [max_eq_right (by linarith : (0:ℚ) ≤ d - (c:ℚ))]
        linarith
      · linarith [not_lt.mp hcl]
  · intro i hi
    have hi' : i < n.toNat := by omega
    rw [hdet]
    simp only [List.getElem?_map, pyRange, List.getElem?_range, hi', if_pos]
    rfl

/-- Concrete instantiation of `claim_C5_thm` at d = 200, n = 2, c = 60. -/
theorem claim_C5_thm_witness :
    (200:ℚ) ≠ 0 ∧ ((60:ℤ):ℚ) < 200 ∧ (1:ℤ) ≤ 2 ∧
      ((((detect_high_energy_moments 200 2 60).length : ℤ) = 2) ∧
       (∀ m ∈ detect_high_energy_moments 200 2 60,
          m.stop = m.start + ((60:ℤ):ℚ) ∧ 0 ≤ m.start ∧
          m.start + ((60:ℤ):ℚ) ≤ 200 ∧ m.score = some (4/5)) ∧
       (∀ i : ℕ, (i:ℤ) < 2 →
          (detect_high_energy_moments 200 2 60)[i]?
            = some { start := if (200:ℚ) < (200 - ((60:ℤ):ℚ)) / (((2:ℤ):ℚ) + 1) * ((i:ℚ) + 1) + ((60:ℤ):ℚ)
                              then max 0 (200 - ((60:ℤ):ℚ))
                              else (200 - ((60:ℤ):ℚ)) / (((2:ℤ):ℚ) + 1) * ((i:ℚ) + 1),
                     stop := (if (200:ℚ) < (200 - ((60:ℤ):ℚ)) / (((2:ℤ):ℚ) + 1) * ((i:ℚ) + 1) + ((60:ℤ):ℚ)
                              then max 0 (200 - ((60:ℤ):ℚ))
                              else (200 - ((60:ℤ):ℚ)) / (((2:ℤ):ℚ) + 1) * ((i:ℚ) + 1)) + ((60:ℤ):ℚ),
                     score := some (4/5),
                     reason := some ("Heuristic segment " ++ toString (i + 1)
                                      ++ " (Fallback)"),
                     title := none, description := none, hashtags := [] })) :=
  ⟨by norm_num, by norm_num, by norm_num,
    claim_C5_thm 200 2 60 (by norm_num) (by norm_num) (by norm_num)⟩

/-! ### Claim C2 -/

theorem select_nil_unfold (n : ℤ) (d : ℚ) (c : ℤ) :
    select_moments [] n d c =
      (if n < ((detect_high_energy_moments d n c).length : ℤ)
       then pySlice (detect_high_energy_moments d n c) n
       else if ((detect_high_energy_moments d n c).length : ℤ) < n then
         sortByStart (backfill (detect_high_energy_moments d n c)
           (detect_high_energy_moments d (n * 2) c)
           (n - ((detect_high_energy_moments d n c).length : ℤ)))
       else detect_high_energy_moments d n c) := rfl

/-- Claim C2, counterexample: requested count 0, duration 30, clip duration
60, AI failed (empty candidates).  The heuristic generator returns the single
"Full video (short)" moment, but reconciliation then truncates the list to
`moments[:0] = []`, so the final selection is not the heuristic output. -/
theorem claim_C2_counterexample :
    select_moments [] 0 30 60 ≠ detect_high_energy_moments 30 0 60 := by
  have hdet : detect_high_energy_moments 30 0 60
      = [{ start := 0, stop := 30, score := some 1,
           reason := some "Full video (short)",
           title := none, description := none, hashtags := [] }] :=
    detect_short 0 60 (by norm_num) (by norm_num)
  rw [select_nil_unfold, hdet]
  norm_num [pySlice]

/-- Claim C2 (amended): whenever the AI produced no usable candidates and the
requested clip count is at least 1, the final selected moment sequence is
exactly the heuristic generator's output for the video's duration, the
requested count, and the clip duration.  (For a requested count ≤ 0 the
truncation step cuts the heuristic output down instead.) -/
theorem claim_C2_thm (d : ℚ) (n c : ℤ) (hn : 1 ≤ n) :
    select_moments [] n d c = detect_high_energy_moments d n c := by
  rw [select_nil_unfold]
  by_cases hd : d = 0
  · subst hd
    rw [detect_zero n c, detect_zero (n * 2) c]
    simp only [List.length_nil, Nat.cast_zero]
    rw [if_neg (by omega), if_pos (by omega)]
    simp [backfill, sortByStart]
  · by_cases hc : d ≤ (c:ℚ)
    · rw [detect_short n c hd hc, detect_short (n * 2) c hd hc]
      simp only [List.length_singleton, Nat.cast_one]
      rw [if_neg (by omega)]
      by_cases h1 : n = 1
      · subst h1
        rw [if_neg (by omega)]
      · rw [if_pos (by omega)]
        have hov : is_overlapping
            { start := 0, stop := d, score := some 1,
              reason := some "Full video (short)",
              title := none, description := none, hashtags := [] }
            [{ start := 0, stop := d, score := some 1,
               reason := some "Full video (short)",
               title := none, description := none, hashtags := [] }] = true := by
          norm_num [is_overlapping]
        simp only [backfill, hov, if_neg (show ¬ (n - 1 ≤ 0) by omega), if_true]
        exact sortByStart_single _
    · have hcd : (c:ℚ) < d := not_le.mp hc
      have hn0 : (0:ℤ) < n := lt_of_lt_of_le one_pos hn
      have hlen : ((detect_high_energy_moments d n c).length : ℤ) = n := by
        rw [detect_long c hd hcd hn0]
        simp only [List.length_map, pyRange, List.length_range]
        omega
      rw [if_neg (by omega), if_neg (by omega)]

/-- Concrete instantiation of `claim_C2_thm` at d = 200, n = 4, c = 60. -/
theorem claim_C2_thm_witness :
    (1:ℤ) ≤ 4 ∧ select_moments [] 4 200 60 = detect_high_energy_moments 200 4 60 :=
  ⟨by norm_num, claim_C2_thm 200 4 60 (by norm_num)⟩

/-! ### Claim C1 -/

/-- Unfolding of `select_moments` (definitional). -/
theorem select_unfold (ai : List Moment) (n : ℤ) (d : ℚ) (c : ℤ) :
    select_moments ai n d c =
      (if n < (((if ai.isEmpty then detect_high_energy_moments d n c else ai)).length : ℤ)
       then pySlice (if ai.isEmpty then detect_high_energy_moments d n c else ai) n
       else if (((if ai.isEmpty then detect_high_energy_moments d n c else ai)).length : ℤ) < n
       then sortByStart (backfill
         (if ai.isEmpty then detect_high_energy_moments d n c else ai)
         (detect_high_energy_moments d (n * 2) c)
         (n - (((if ai.isEmpty then detect_high_energy_moments d n c else ai)).length : ℤ)))
       else (if ai.isEmpty then detect_high_energy_moments d n c else ai)) := rfl

/-- Full functional specification of the backfill loop: it extends the
accepted list with a block `new` of appended candidates; every appended
candidate carries reason "Heuristic Backfill" and its start is at least 10
seconds away from the start of every moment accepted before it (the original
list plus all earlier appendees); at most `max needed 0` candidates are
appended. -/
theorem backfill_spec (hs : List Moment) : ∀ (m : List Moment) (needed : ℤ),
    ∃ new, backfill m hs needed = m ++ new ∧
      (new.length : ℤ) ≤ max needed 0 ∧
      (∀ pre x suf, new = pre ++ x :: suf →
        x.reason = some "Heuristic Backfill" ∧
        ∀ y ∈ m ++ pre, 10 ≤ |x.start - y.start|) := by
  induction hs with
  | nil =>
    intro m needed
    refine ⟨[], by simp [backfill], by simp, ?_⟩
    intro pre x suf h
    exact absurd h (by simp)
  | cons hm rest ih =>
    intro m needed
    by_cases h0 : needed ≤ 0
    · refine ⟨[], by simp [backfill, h0], by simp, ?_⟩
      intro pre x suf h
      exact absurd h (by simp)
    · by_cases hov : is_overlapping hm m = true
      · obtain ⟨new, h1, h2, h3⟩ := ih m needed
        refine ⟨new, ?_, h2, h3⟩
        simp only [backfill, if_neg h0, hov, if_true]
        exact h1
      · obtain ⟨new, h1, h2, h3⟩ :=
          ih (m ++ [{ hm with reason := some "Heuristic Backfill" }]) (needed - 1)
        have hfar : ∀ y ∈ m, 10 ≤ |hm.start - y.start| := by
          intro y hy
          simp only [is_overlapping, List.any_eq_true, not_exists, not_and,
            Bool.not_eq_true] at hov
          have := hov y hy
          rw [decide_eq_false_iff_not, not_lt] at this
          exact this
        refine ⟨{ hm with reason := some "Heuristic Backfill" } :: new, ?_, ?_, ?_⟩
        · simp only [backfill, if_neg h0, hov, if_false]
          rw [h1]
          simp
        · simp only [List.length_cons]
          rw [max_eq_left (by omega : (0:ℤ) ≤ needed)]
          rw [max_eq_left (by omega : (0:ℤ) ≤ needed - 1)] at h2
          push_cast
          omega
        · intro pre x suf hdec
          cases pre with
          | nil =>
            rw [List.nil_append] at hdec
            simp only [List.cons.injEq] at hdec
            obtain ⟨hx, -⟩ := hdec
            refine ⟨hx ▸ rfl, ?_⟩
            intro y hy
            rw [List.append_nil] at hy
            rw [← hx]
            exact hfar y hy
          | cons p pre' =>
            rw [List.cons_append] at hdec
            simp only [List.cons.injEq] at hdec
            obtain ⟨hp, hnew⟩ := hdec
            obtain ⟨hr, hfar'⟩ := h3 pre' x suf hnew
            refine ⟨hr, ?_⟩
            intro y hy
            apply hfar'
            rw [← hp] at hy
            simpa [List.append_assoc] using hy

/-- Claim C1: in backfill mode (accepted candidates fewer than requested),
the final selection is the sorted extension of the accepted set by a block of
appended heuristic candidates; every appended candidate has reason
"Heuristic Backfill" and a start at least 10 seconds from the start of every
moment already accepted when it was appended (original candidates plus
earlier appendees); and the result never exceeds the requested count — if
the heuristic candidates run out it simply stays shorter, without error. -/
theorem claim_C1_thm (ai : List Moment) (n : ℤ) (d : ℚ) (c : ℤ)
    (hlt : (((if ai.isEmpty then detect_high_energy_moments d n c else ai)).length : ℤ) < n) :
    ∃ new,
      select_moments ai n d c
        = sortByStart ((if ai.isEmpty then detect_high_energy_moments d n c else ai) ++ new) ∧
      (∀ pre x suf, new = pre ++ x :: suf →
        x.reason = some "Heuristic Backfill" ∧
        ∀ y ∈ (if ai.isEmpty then detect_high_energy_moments d n c else ai) ++ pre,
          10 ≤ |x.start - y.start|) ∧
      ((select_moments ai n d c).length : ℤ) ≤ n := by
  obtain ⟨new, h1, h2, h3⟩ :=
    backfill_spec (detect_high_energy_moments d (n * 2) c)
      (if ai.isEmpty then detect_high_energy_moments d n c else ai)
      (n - (((if ai.isEmpty then detect_high_energy_moments d n c else ai)).length : ℤ))
  have hsel : select_moments ai n d c
      = sortByStart ((if ai.isEmpty then detect_high_energy_moments d n c else ai) ++ new) := by
    rw [select_unfold, if_neg (by omega), if_pos hlt, h1]
  refine ⟨new, hsel, h3, ?_⟩
  rw [hsel, length_sortByStart, List.length_append]
  rw [max_eq_left (by omega : (0:ℤ) ≤ n - (((if ai.isEmpty then detect_high_energy_moments d n c else ai)).length : ℤ))] at h2
  push_cast
  omega

/-- A sample AI-provided moment used for concrete instantiations. -/
def sampleMomentA : Moment :=
  { start := 20, stop := 80, score := none, reason := none,
    title := none, description := none, hashtags := [] }

/-- Concrete instantiation of `claim_C1_thm`: one AI candidate, two requested
clips, duration 0 (so the heuristic source is exhausted at once). -/
theorem claim_C1_thm_witness :
    ((((if ([sampleMomentA]).isEmpty then detect_high_energy_moments 0 2 60 else [sampleMomentA])).length : ℤ) < 2) ∧
    (∃ new,
      select_moments [sampleMomentA] 2 0 60
        = sortByStart ((if ([sampleMomentA]).isEmpty then detect_high_energy_moments 0 2 60 else [sampleMomentA]) ++ new) ∧
      (∀ pre x suf, new = pre ++ x :: suf →
        x.reason = some "Heuristic Backfill" ∧
        ∀ y ∈ (if ([sampleMomentA]).isEmpty then detect_high_energy_moments 0 2 60 else [sampleMomentA]) ++ pre,
          10 ≤ |x.start - y.start|) ∧
      ((select_moments [sampleMomentA] 2 0 60).length : ℤ) ≤ 2) :=
  ⟨by simp, claim_C1_thm [sampleMomentA] 2 0 60 (by simp)⟩

/-! ### Claim C3 -/

/-- An AI candidate starting late (start 100). -/
def momLate : Moment :=
  { start := 100, stop := 160, score := none, reason := none,
    title := none, description := none, hashtags := [] }

/-- An AI candidate starting early (start 5). -/
def momEarly : Moment :=
  { start := 5, stop := 65, score := none, reason := none,
    title := none, description := none, hashtags := [] }

theorem sortByStart_sorted (l : List Moment) :
    List.Pairwise (fun a b : Moment => a.start ≤ b.start) (sortByStart l) := by
  have htrans : ∀ a b c : Moment,
      (fun a b : Moment => decide (a.start ≤ b.start)) a b = true →
      (fun a b : Moment => decide (a.start ≤ b.start)) b c = true →
      (fun a b : Moment => decide (a.start ≤ b.start)) a c = true := by
    intro a b c hab hbc
    exact decide_eq_true (le_trans (of_decide_eq_true hab) (of_decide_eq_true hbc))
  have htotal : ∀ a b : Moment,
      ((fun a b : Moment => decide (a.start ≤ b.start)) a b
        || (fun a b : Moment => decide (a.start ≤ b.start)) b a) = true := by
    intro a b
    rcases le_total a.start b.start with h | h
    · simp [h]
    · simp [h]
  have h := @List.sorted_mergeSort Moment
    (fun a b : Moment => decide (a.start ≤ b.start)) htrans htotal l
  exact h.imp (fun hab => of_decide_eq_true hab)

/-- Claim C3, counterexample: two AI candidates in non-chronological order
(starts 100 then 5) with a requested count of exactly 2 take the pass-through
path, which performs no sort, so the final sequence is not sorted by start. -/
theorem claim_C3_counterexample :
    ¬ List.Pairwise (fun a b : Moment => a.start ≤ b.start)
        (select_moments [momLate, momEarly] 2 200 60) := by
  have hsel : select_moments [momLate, momEarly] 2 200 60 = [momLate, momEarly] := by
    rw [select_unfold, if_neg (by simp), if_neg (by simp)]
    simp
  rw [hsel]
  intro h
  have := (List.pairwise_cons.mp h).1 momEarly (by simp)
  simp only [momLate, momEarly] at this
  norm_num at this

/-- Claim C3 (amended): the final sequence is sorted ascending by start time
on the backfill path (fewer candidates than requested), where the code sorts;
on the truncation and exact-count paths the candidate order is passed through
unchanged (as `moments[:num_shorts]`), so AI candidates arriving out of
chronological order remain out of order. -/
theorem claim_C3_thm (ai : List Moment) (n : ℤ) (d : ℚ) (c : ℤ) :
    ((((if ai.isEmpty then detect_high_energy_moments d n c else ai)).length : ℤ) < n →
      List.Pairwise (fun a b : Moment => a.start ≤ b.start) (select_moments ai n d c)) ∧
    (n ≤ (((if ai.isEmpty then detect_high_energy_moments d n c else ai)).length : ℤ) →
      select_moments ai n d c
        = pySlice (if ai.isEmpty then detect_high_energy_moments d n c else ai) n) := by
  constructor
  · intro hlt
    rw [select_unfold, if_neg (by omega), if_pos hlt]
    exact sortByStart_sorted _
  · intro hle
    rw [select_unfold]
    by_cases hlt : n < (((if ai.isEmpty then detect_high_energy_moments d n c else ai)).length : ℤ)
    · rw [if_pos hlt]
    · rw [if_neg hlt, if_neg (by omega)]
      have hpy : pySlice (if ai.isEmpty then detect_high_energy_moments d n c else ai) n
          = (if ai.isEmpty then detect_high_energy_moments d n c else ai) := by
        unfold pySlice
        rw [if_pos (by omega : (0:ℤ) ≤ n)]
        have hnt : n.toNat
            = ((if ai.isEmpty then detect_high_energy_moments d n c else ai)).length := by
          omega
        rw [hnt, List.take_length]
      exact hpy.symm

/-- Concrete instantiations of both parts of `claim_C3_thm`. -/
theorem claim_C3_thm_witness :
    (List.Pairwise (fun a b : Moment => a.start ≤ b.start)
       (select_moments [sampleMomentA] 2 0 60)) ∧
    (select_moments [momLate, momEarly] 1 0 60
       = pySlice (if ([momLate, momEarly]).isEmpty
                  then detect_high_energy_moments 0 1 60
                  else [momLate, momEarly]) 1) :=
  ⟨(claim_C3_thm [sampleMomentA] 2 0 60).1 (by simp),
   (claim_C3_thm [momLate, momEarly] 1 0 60).2 (by simp)⟩

/-! ### Claim C10 -/

theorem pySlice_subset (l : List α) (n : ℤ) : pySlice l n ⊆ l := by
  unfold pySlice
  split_ifs
  · exact List.take_subset _ _
  · exact List.take_subset _ _

/-- Every element of a backfilled list is either an element of the original
accepted list, unchanged, or a heuristic candidate whose reason (and nothing
else) was replaced by "Heuristic Backfill". -/
theorem backfill_mem (hs : List Moment) : ∀ (m : List Moment) (needed : ℤ)
    {x : Moment}, x ∈ backfill m hs needed →
    x ∈ m ∨ ∃ h ∈ hs, x = { h with reason := some "Heuristic Backfill" } := by
  induction hs with
  | nil =>
    intro m needed x hx
    simp only [backfill] at hx
    exact Or.inl hx
  | cons hm rest ih =>
    intro m needed x hx
    by_cases h0 : needed ≤ 0
    · simp only [backfill, if_pos h0] at hx
      exact Or.inl hx
    · by_cases hov : is_overlapping hm m = true
      · simp only [backfill, if_neg h0, hov, if_true] at hx
        rcases ih m needed hx with h | ⟨hh, hmem, hxeq⟩
        · exact Or.inl h
        · exact Or.inr ⟨hh, List.mem_cons_of_mem _ hmem, hxeq⟩
      · simp only [backfill, if_neg h0, hov, if_false] at hx
        rcases ih _ (needed - 1) hx with h | ⟨hh, hmem, hxeq⟩
        · rcases List.mem_append.mp h with h' | h'
          · exact Or.inl h'
          · refine Or.inr ⟨hm, List.mem_cons_self _ _, ?_⟩
            simpa using h'
        · exact Or.inr ⟨hh, List.mem_cons_of_mem _ hmem, hxeq⟩

theorem select_mem_cases (m0 hs : List Moment) (n : ℤ) {m : Moment}
    (hm : m ∈ (if n < (m0.length : ℤ) then pySlice m0 n
               else if (m0.length : ℤ) < n
               then sortByStart (backfill m0 hs (n - (m0.length : ℤ)))
               else m0)) :
    m ∈ m0 ∨ ∃ h ∈ hs, m = { h with reason := some "Heuristic Backfill" } := by
  split_ifs at hm with h1 h2
  · exact Or.inl (pySlice_subset _ _ hm)
  · rw [mem_sortByStart] at hm
    exact backfill_mem _ _ _ hm
  · exact Or.inl hm

/-- Claim C10: reconciliation never alters any field of an AI candidate that
reaches the final result — every final moment is either an untouched AI
candidate, an untouched full-heuristic-fallback moment, or a backfill
heuristic candidate whose only change is its reason field being replaced by
"Heuristic Backfill". -/
theorem claim_C10_thm (ai : List Moment) (n : ℤ) (d : ℚ) (c : ℤ) :
    ∀ m ∈ select_moments ai n d c,
      m ∈ ai ∨ m ∈ detect_high_energy_moments d n c ∨
      ∃ h ∈ detect_high_energy_moments d (n * 2) c,
        m = { h with reason := some "Heuristic Backfill" } := by
  intro m hm
  rw [select_unfold] at hm
  rcases select_mem_cases _ _ _ hm with h | h
  · by_cases hai : ai.isEmpty
    · rw [if_pos hai] at h
      exact Or.inr (Or.inl h)
    · rw [if_neg hai] at h
      exact Or.inl h
  · exact Or.inr (Or.inr h)

/-- Concrete instantiation of `claim_C10_thm`: the AI candidate passes
through reconciliation untouched. -/
theorem claim_C10_thm_witness :
    sampleMomentA ∈ [sampleMomentA] ∨
    sampleMomentA ∈ detect_high_energy_moments 0 1 60 ∨
    ∃ h ∈ detect_high_energy_moments 0 (1 * 2) 60,
      sampleMomentA = { h with reason := some "Heuristic Backfill" } :=
  claim_C10_thm [sampleMomentA] 1 0 60 sampleMomentA
    (by rw [select_unfold, if_neg (by simp), if_neg (by simp)]; simp)

/-! ### Claim C4 -/

theorem ite_neg_max (a : ℚ) : (if a < 0 then (0:ℚ) else a) = max 0 a := by
  rcases lt_or_le a 0 with h | h
  · rw [if_pos h, max_eq_left (le_of_lt h)]
  · rw [if_neg (not_lt.mpr h), max_eq_right h]

/-- The entry builder keeps exactly the words whose relative end is
nonnegative, in order, shifting them, clamping the relative start at 0 and
stripping the text. -/
theorem build_entries_eq (W : List Word) (O : ℚ) :
    build_entries W O
      = (W.filter (fun w => 0 ≤ w.stop - O)).map
          (fun w => (max 0 (w.start - O), w.stop - O, pyStrip w.word)) := by
  induction W with
  | nil => rfl
  | cons w ws ih =>
    by_cases h : w.stop - O < 0
    · have h2 : ¬ (0 ≤ w.stop - O) := not_le.mpr h
      simp only [build_entries, List.filterMap_cons, List.filter_cons, if_pos h,
        decide_eq_true_eq, h2, if_false] at ih ⊢
      exact ih
    · have h2 : (0 ≤ w.stop - O) := not_lt.mp h
      simp only [build_entries, List.filterMap_cons, List.filter_cons, if_neg h,
        decide_eq_true_eq, h2, if_true, List.map_cons, ite_neg_max] at ih ⊢
      exact congrArg _ ih

theorem write_entries_map_fst (l : List (ℚ × ℚ × String)) :
    ∀ k, (write_entries k l).map Prod.fst = List.range' k l.length := by
  induction l with
  | nil => intro k; rfl
  | cons e rest ih =>
    intro k
    simp only [write_entries, List.map_cons, List.length_cons, List.range'_succ]
    rw [ih]

/-- Claim C4: for word sequences whose words satisfy end ≥ start and any clip
start offset, cue building emits at most one cue per word; it keeps exactly
the words with nonnegative relative end, in order, clamping negative relative
starts to 0; every emitted cue satisfies 0 ≤ relative start ≤ relative end;
the SRT numbering is sequential and 1-based; and empty input yields an empty
cue list. -/
theorem claim_C4_thm (W : List Word) (O : ℚ) (hW : ∀ w ∈ W, w.start ≤ w.stop) :
    (build_entries W O).length ≤ W.length ∧
    build_entries W O
      = (W.filter (fun w => 0 ≤ w.stop - O)).map
          (fun w => (max 0 (w.start - O), w.stop - O, pyStrip w.word)) ∧
    (∀ e ∈ build_entries W O, 0 ≤ e.1 ∧ e.1 ≤ e.2.1) ∧
    (write_entries 1 (build_entries W O)).map Prod.fst
      = List.range' 1 (build_entries W O).length ∧
    build_entries [] O = [] := by
  refine ⟨?_, build_entries_eq W O, ?_, write_entries_map_fst _ 1, rfl⟩
  · rw [build_entries_eq, List.length_map]
    exact List.length_filter_le _ _
  · intro e he
    rw [build_entries_eq] at he
    rw [List.mem_map] at he
    obtain ⟨w, hwf, rfl⟩ := he
    rw [List.mem_filter] at hwf
    obtain ⟨hwW, hwe⟩ := hwf
    rw [decide_eq_true_eq] at hwe
    exact ⟨le_max_left _ _,
      max_le hwe (sub_le_sub_right (hW w hwW) O)⟩

/-- A word straddling the clip start. -/
def wordA : Word := { word := " Hello ", start := 4, stop := 6 }

/-- A word entirely before the clip start. -/
def wordB : Word := { word := "gone", start := 1, stop := 2 }

/-- Concrete instantiation of `claim_C4_thm` on a two-word list with offset 5:
one word straddles the clip start, one lies entirely before it. -/
theorem claim_C4_thm_witness :
    (∀ w ∈ [wordA, wordB], w.start ≤ w.stop) ∧
    ((build_entries [wordA, wordB] 5).length ≤ ([wordA, wordB] : List Word).length ∧
     build_entries [wordA, wordB] 5
       = (([wordA, wordB] : List Word).filter (fun w => 0 ≤ w.stop - 5)).map
           (fun w => (max 0 (w.start - 5), w.stop - 5, pyStrip w.word)) ∧
     (∀ e ∈ build_entries [wordA, wordB] 5, 0 ≤ e.1 ∧ e.1 ≤ e.2.1) ∧
     (write_entries 1 (build_entries [wordA, wordB] 5)).map Prod.fst
       = List.range' 1 (build_entries [wordA, wordB] 5).length ∧
     build_entries [] 5 = []) :=
  have hws : ∀ w ∈ [wordA, wordB], w.start ≤ w.stop := by
    intro w hw
    simp only [List.mem_cons, List.not_mem_nil, or_false] at hw
    rcases hw with rfl | rfl
    · norm_num [wordA]
    · norm_num [wordB]
  ⟨hws, claim_C4_thm [wordA, wordB] 5 hws⟩

/-! ### Claim C8 -/

theorem build_entries_append (a b : List Word) (O : ℚ) :
    build_entries (a ++ b) O = build_entries a O ++ build_entries b O := by
  simp [build_entries, List.filterMap_append]

theorem build_entries_single (w : Word) (O : ℚ) :
    build_entries [w] O
      = if w.stop - O < 0 then []
        else [(max 0 (w.start - O), w.stop - O, pyStrip w.word)] := by
  by_cases h : w.stop - O < 0
  · simp only [build_entries, List.filterMap_cons, List.filterMap_nil, if_pos h]
  · simp only [build_entries, List.filterMap_cons, List.filterMap_nil, if_neg h,
      ite_neg_max]

/-- Claim C8, counterexample: a segment without word-level timing whose end
lies entirely before the clip start offset contributes no cue at all (it is
dropped like any word), not exactly one cue; and when it is kept, its text is
whitespace-stripped rather than used in full. -/
theorem claim_C8_counterexample :
    generate_word_level_srt [{ text := "hi", start := 0, stop := 1, words := none }] 5 = [] ∧
    generate_word_level_srt [{ text := " hi ", start := 3, stop := 4, words := none }] 1
      = [(1, 2, 3, "hi")] := by
  constructor
  · norm_num [generate_word_level_srt, flatten_words, build_entries, write_entries]
  · norm_num [generate_word_level_srt, flatten_words, build_entries, write_entries]
    rfl

/-- Claim C8 (amended): a segment carrying no word-level timing contributes
exactly one flattened pseudo-word with the segment's own start, end and text;
that pseudo-word then undergoes the same processing as real words — it is
dropped when its relative end is negative, its relative start is clamped to
0, and its text is whitespace-stripped in the emitted cue. -/
theorem claim_C8_thm (pre post : List Segment) (seg : Segment) (O : ℚ)
    (h : seg.words = none) :
    build_entries (flatten_words (pre ++ seg :: post)) O
      = build_entries (flatten_words pre) O
        ++ (if seg.stop - O < 0 then []
            else [(max 0 (seg.start - O), seg.stop - O, pyStrip seg.text)])
        ++ build_entries (flatten_words post) O := by
  have hfl : flatten_words (pre ++ seg :: post)
      = flatten_words pre
        ++ [{ word := seg.text, start := seg.start, stop := seg.stop }]
        ++ flatten_words post := by
    simp [flatten_words, h]
  rw [hfl, build_entries_append, build_entries_append, build_entries_single]

/-- A sample segment without word-level timing. -/
def segNoWords : Segment := { text := " hi ", start := 3, stop := 4, words := none }

/-- Concrete instantiation of `claim_C8_thm`. -/
theorem claim_C8_thm_witness :
    segNoWords.words = none ∧
    build_entries (flatten_words ([] ++ segNoWords :: [])) 1
      = build_entries (flatten_words []) 1
        ++ (if segNoWords.stop - 1 < 0 then []
            else [(max 0 (segNoWords.start - 1), segNoWords.stop - 1, pyStrip segNoWords.text)])
        ++ build_entries (flatten_words []) 1 :=
  ⟨rfl, claim_C8_thm [] [] segNoWords 1 rfl⟩

/-! ### Claim C9 -/

theorem process_clips_go_eq (file_id : String) (segments : List Segment)
    (srt_ok : ℕ → Bool) (cut : ℕ → Moment → Option String → String → Option String)
    (final_style : String) :
    ∀ (moments : List Moment) (i : ℕ),
      process_clips_go file_id segments srt_ok cut final_style i moments
        = (List.enumFrom i moments).filterMap (fun p =>
            (cut p.1 p.2 (subtitleArg file_id segments srt_ok p.1) final_style).map
              (mkClipResult p.1 p.2)) := by
  intro moments
  induction moments with
  | nil => intro i; rfl
  | cons m rest ih =>
    intro i
    simp only [process_clips_go, List.enumFrom, List.filterMap_cons]
    cases h : cut i m (subtitleArg file_id segments srt_ok i) final_style with
    | none => simp [h, ih]
    | some path => simp [h, ih]

/-- Claim C9, counterexample: with segments present, SRT generation failing
for clip 0 (the srt_ok oracle returns false) and the cut succeeding, the clip
is NOT omitted from the returned list — it is rendered without captions.  A
failure in SRT generation therefore does not cause the clip's omission,
contrary to the claim's wording. -/
theorem claim_C9_counterexample :
    process_clips "f" [segNoWords] (fun _ => false) (fun _ _ _ _ => some "out.mp4")
      "Classic" none none none [momEarly]
      = [mkClipResult 0 momEarly "out.mp4"] := by
  rfl

/-- Claim C9 (amended): the returned clip list is exactly the successful cuts
in order — a clip is omitted precisely when its own cut fails, every moment
is attempted regardless of earlier failures, and an SRT-generation failure
does not omit the clip (it only renders it without captions, via a `none`
subtitle argument); the batch always completes. -/
theorem claim_C9_thm (file_id : String) (segments : List Segment)
    (srt_ok : ℕ → Bool) (cut : ℕ → Moment → Option String → String → Option String)
    (caption_style : String) (custom_color custom_bg_color : Option String)
    (custom_size : Option ℤ) (moments : List Moment) :
    process_clips file_id segments srt_ok cut caption_style custom_color
        custom_bg_color custom_size moments
      = moments.enum.filterMap (fun p =>
          (cut p.1 p.2 (subtitleArg file_id segments srt_ok p.1)
             (buildFinalStyle caption_style custom_color custom_bg_color custom_size)).map
            (mkClipResult p.1 p.2)) ∧
    (process_clips file_id segments srt_ok cut caption_style custom_color
        custom_bg_color custom_size moments).length ≤ moments.length := by
  have h := process_clips_go_eq file_id segments srt_ok cut
    (buildFinalStyle caption_style custom_color custom_bg_color custom_size) moments 0
  refine ⟨h, ?_⟩
  have h2 : (process_clips file_id segments srt_ok cut caption_style custom_color
      custom_bg_color custom_size moments).length
      ≤ (List.enumFrom 0 moments).length := by
    unfold process_clips
    rw [h]
    exact List.length_filterMap_le _ _
  simpa using h2

/-! ### Claim C7 -/

theorem isHexChar_ne_hash {c : Char} (h : isHexChar c = true) : (c == '#') = false := by
  by_cases hc : c = '#'
  · subst hc
    exact absurd h (by decide)
  · exact beq_eq_false_iff_ne.mpr hc

theorem pyLstripHash_hex (h1 h2 h3 h4 h5 h6 : Char) (hne : (h1 == '#') = false) :
    pyLstripHash (String.mk ['#', h1, h2, h3, h4, h5, h6])
      = [h1, h2, h3, h4, h5, h6] := by
  simp [pyLstripHash, List.dropWhile, hne]

/-- With a (stripped) 6-character color, the background branch performs the
three substitutions with the byte-reversed replacement. -/
theorem applyCustomBgColor_hex (fs : String) (h1 h2 h3 h4 h5 h6 : Char)
    (hne : (h1 == '#') = false) :
    applyCustomBgColor (some (String.mk ['#', h1, h2, h3, h4, h5, h6])) fs
      = reSub "OutlineColour=&H" isHexChar "&"
          (String.mk ("OutlineColour=&H".data ++ [h5, h6, h3, h4, h1, h2] ++ ['&']))
          (reSub "Shadow=" isDigitChar "" "Shadow=0"
            (reSub "BorderStyle=" isDigitChar "" "BorderStyle=3" fs)) := by
  simp only [applyCustomBgColor, List.isEmpty_cons, Bool.false_eq_true, if_false,
    pyLstripHash_hex h1 h2 h3 h4 h5 h6 hne]
  norm_num [List.take, List.drop]

theorem styleMapGet_Karaoke : styleMapGet "Karaoke"
    = "Alignment=10,Fontname=Nirmala UI,Fontsize=30,PrimaryColour=&H00FF00&,OutlineColour=&H000000&,BorderStyle=1,Outline=1,Shadow=0,MarginV=20" := rfl

theorem styleMapGet_DeepDiver : styleMapGet "Deep Diver"
    = "Alignment=10,Fontname=Nirmala UI,Fontsize=30,PrimaryColour=&HFFFFFF&,BorderStyle=3,Outline=1,Shadow=0,MarginV=20" := rfl

theorem styleMapGet_Mozi : styleMapGet "Mozi"
    = "Alignment=10,Fontname=Nirmala UI,Fontsize=30,PrimaryColour=&HFF00FF&,OutlineColour=&HFFFF00&,BorderStyle=1,Outline=2,Shadow=0,MarginV=20" := rfl

theorem styleMapGet_Glitch : styleMapGet "Glitch"
    = "Alignment=10,Fontname=Nirmala UI,Fontsize=30,PrimaryColour=&H0000FF&,OutlineColour=&H00FFFF&,BorderStyle=1,Outline=1,Shadow=1,MarginV=20" := rfl

theorem styleMapGet_Classic : styleMapGet "Classic"
    = "Alignment=10,Fontname=Nirmala UI,Fontsize=30,PrimaryColour=&HFFFFFF&,OutlineColour=&H000000&,BorderStyle=1,Outline=1,Shadow=0,MarginV=20" := rfl

theorem styleMapGet_other (name : String) (hK : ¬ name = "Karaoke")
    (hD : ¬ name = "Deep Diver") (hM : ¬ name = "Mozi")
    (hG : ¬ name = "Glitch") (hC : ¬ name = "Classic") :
    styleMapGet name
      = "Alignment=10,Fontname=Nirmala UI,Fontsize=30,PrimaryColour=&HFFFFFF&,OutlineColour=&H000000&,BorderStyle=1,Outline=1,Shadow=0,MarginV=20" := by
  have k1 : (name == "Karaoke") = false := beq_eq_false_iff_ne.mpr hK
  have k2 : (name == "Deep Diver") = false := beq_eq_false_iff_ne.mpr hD
  have k3 : (name == "Mozi") = false := beq_eq_false_iff_ne.mpr hM
  have k4 : (name == "Glitch") = false := beq_eq_false_iff_ne.mpr hG
  have k5 : (name == "Classic") = false := beq_eq_false_iff_ne.mpr hC
  simp [styleMapGet, STYLE_MAP, List.lookup, k1, k2, k3, k4, k5]

theorem buildFinalStyle_bg_only (name : String) (bg : Option String) :
    buildFinalStyle name none bg none = applyCustomBgColor bg (styleMapGet name) := rfl

set_option maxRecDepth 400000 in
theorem bgResult_Karaoke (h1 h2 h3 h4 h5 h6 : Char) (hne : (h1 == '#') = false) :
    (applyCustomBgColor (some (String.mk ['#', h1, h2, h3, h4, h5, h6]))
        "Alignment=10,Fontname=Nirmala UI,Fontsize=30,PrimaryColour=&H00FF00&,OutlineColour=&H000000&,BorderStyle=1,Outline=1,Shadow=0,MarginV=20").data
      = "Alignment=10,Fontname=Nirmala UI,Fontsize=30,PrimaryColour=&H00FF00&,".data
        ++ ("OutlineColour=&H".data ++ [h5, h6, h3, h4, h1, h2] ++ ['&'])
        ++ ",BorderStyle=3,Outline=1,Shadow=0,MarginV=20".data := by
  rw [applyCustomBgColor_hex _ _ _ _ _ _ _ hne]
  rfl

set_option maxRecDepth 400000 in
theorem bgResult_Mozi (h1 h2 h3 h4 h5 h6 : Char) (hne : (h1 == '#') = false) :
    (applyCustomBgColor (some (String.mk ['#', h1, h2, h3, h4, h5, h6]))
        "Alignment=10,Fontname=Nirmala UI,Fontsize=30,PrimaryColour=&HFF00FF&,OutlineColour=&HFFFF00&,BorderStyle=1,Outline=2,Shadow=0,MarginV=20").data
      = "Alignment=10,Fontname=Nirmala UI,Fontsize=30,PrimaryColour=&HFF00FF&,".data
        ++ ("OutlineColour=&H".data ++ [h5, h6, h3, h4, h1, h2] ++ ['&'])
        ++ ",BorderStyle=3,Outline=2,Shadow=0,MarginV=20".data := by
  rw [applyCustomBgColor_hex _ _ _ _ _ _ _ hne]
  rfl

set_option maxRecDepth 400000 in
theorem bgResult_Glitch (h1 h2 h3 h4 h5 h6 : Char) (hne : (h1 == '#') = false) :
    (applyCustomBgColor (some (String.mk ['#', h1, h2, h3, h4, h5, h6]))
        "Alignment=10,Fontname=Nirmala UI,Fontsize=30,PrimaryColour=&H0000FF&,OutlineColour=&H00FFFF&,BorderStyle=1,Outline=1,Shadow=1,MarginV=20").data
      = "Alignment=10,Fontname=Nirmala UI,Fontsize=30,PrimaryColour=&H0000FF&,".data
        ++ ("OutlineColour=&H".data ++ [h5, h6, h3, h4, h1, h2] ++ ['&'])
        ++ ",BorderStyle=3,Outline=1,Shadow=0,MarginV=20".data := by
  rw [applyCustomBgColor_hex _ _ _ _ _ _ _ hne]
  rfl

set_option maxRecDepth 400000 in
theorem bgResult_Classic (h1 h2 h3 h4 h5 h6 : Char) (hne : (h1 == '#') = false) :
    (applyCustomBgColor (some (String.mk ['#', h1, h2, h3, h4, h5, h6]))
        "Alignment=10,Fontname=Nirmala UI,Fontsize=30,PrimaryColour=&HFFFFFF&,OutlineColour=&H000000&,BorderStyle=1,Outline=1,Shadow=0,MarginV=20").data
      = "Alignment=10,Fontname=Nirmala UI,Fontsize=30,PrimaryColour=&HFFFFFF&,".data
        ++ ("OutlineColour=&H".data ++ [h5, h6, h3, h4, h1, h2] ++ ['&'])
        ++ ",BorderStyle=3,Outline=1,Shadow=0,MarginV=20".data := by
  rw [applyCustomBgColor_hex _ _ _ _ _ _ _ hne]
  rfl

set_option maxRecDepth 400000 in
theorem bgResult_DeepDiver (h1 h2 h3 h4 h5 h6 : Char) (hne : (h1 == '#') = false) :
    applyCustomBgColor (some (String.mk ['#', h1, h2, h3, h4, h5, h6]))
        "Alignment=10,Fontname=Nirmala UI,Fontsize=30,PrimaryColour=&HFFFFFF&,BorderStyle=3,Outline=1,Shadow=0,MarginV=20"
      = "Alignment=10,Fontname=Nirmala UI,Fontsize=30,PrimaryColour=&HFFFFFF&,BorderStyle=3,Outline=1,Shadow=0,MarginV=20" := by
  rw [applyCustomBgColor_hex _ _ _ _ _ _ _ hne]
  rfl

set_option maxRecDepth 400000 in
theorem classicBgParts (h1 h2 h3 h4 h5 h6 : Char) (hne : (h1 == '#') = false) :
    ("BorderStyle=3".data <:+:
      (applyCustomBgColor (some (String.mk ['#', h1, h2, h3, h4, h5, h6]))
        "Alignment=10,Fontname=Nirmala UI,Fontsize=30,PrimaryColour=&HFFFFFF&,OutlineColour=&H000000&,BorderStyle=1,Outline=1,Shadow=0,MarginV=20").data) ∧
    ("Shadow=0".data <:+:
      (applyCustomBgColor (some (String.mk ['#', h1, h2, h3, h4, h5, h6]))
        "Alignment=10,Fontname=Nirmala UI,Fontsize=30,PrimaryColour=&HFFFFFF&,OutlineColour=&H000000&,BorderStyle=1,Outline=1,Shadow=0,MarginV=20").data) ∧
    (("OutlineColour=&H".data ++ [h5, h6, h3, h4, h1, h2] ++ ['&']) <:+:
      (applyCustomBgColor (some (String.mk ['#', h1, h2, h3, h4, h5, h6]))
        "Alignment=10,Fontname=Nirmala UI,Fontsize=30,PrimaryColour=&HFFFFFF&,OutlineColour=&H000000&,BorderStyle=1,Outline=1,Shadow=0,MarginV=20").data) := by
  simp only [bgResult_Classic h1 h2 h3 h4 h5 h6 hne]
  refine ⟨⟨"Alignment=10,Fontname=Nirmala UI,Fontsize=30,PrimaryColour=&HFFFFFF&,".data
      ++ ("OutlineColour=&H".data ++ [h5, h6, h3, h4, h1, h2] ++ ['&']) ++ ",".data,
      ",Outline=1,Shadow=0,MarginV=20".data, by rfl⟩,
    ⟨"Alignment=10,Fontname=Nirmala UI,Fontsize=30,PrimaryColour=&HFFFFFF&,".data
      ++ ("OutlineColour=&H".data ++ [h5, h6, h3, h4, h1, h2] ++ ['&'])
      ++ ",BorderStyle=3,Outline=1,".data,
      ",MarginV=20".data, by rfl⟩,
    ⟨"Alignment=10,Fontname=Nirmala UI,Fontsize=30,PrimaryColour=&HFFFFFF&,".data,
      ",BorderStyle=3,Outline=1,Shadow=0,MarginV=20".data, by rfl⟩⟩

set_option maxRecDepth 400000 in
/-- Claim C7, counterexample: the "Deep Diver" preset carries no
OutlineColour field, so resolving it with bg_color "#112233" forces the boxed
border and zero shadow but leaves the style without any outline/box color
field — the reversed background color &H332211& is silently dropped, contrary
to the claim that the outline/box color field is always set. -/
theorem claim_C7_counterexample :
    buildFinalStyle "Deep Diver" none (some "#112233") none
      = "Alignment=10,Fontname=Nirmala UI,Fontsize=30,PrimaryColour=&HFFFFFF&,BorderStyle=3,Outline=1,Shadow=0,MarginV=20" ∧
    ¬ ("OutlineColour".data <:+:
        (buildFinalStyle "Deep Diver" none (some "#112233") none).data) := by
  constructor
  · rw [buildFinalStyle_bg_only, styleMapGet_DeepDiver]
    exact bgResult_DeepDiver '1' '1' '2' '2' '3' '3' (by decide)
  · rw [buildFinalStyle_bg_only, styleMapGet_DeepDiver,
      bgResult_DeepDiver '1' '1' '2' '2' '3' '3' (by decide)]
    decide

set_option maxRecDepth 400000 in
/-- Claim C7 (amended): for every preset name and every valid 6-hex-digit
bg_color (after stripping a leading '#'), the resolved style has
BorderStyle=3 forced and Shadow=0 forced; and for every preset except
"Deep Diver" — whose base style string carries no OutlineColour field, so the
substitution finds nothing to replace and the background color is dropped —
the OutlineColour field is set to the byte-order-reversed color &HBBGGRR&.
In particular "Classic" with "#112233" yields OutlineColour=&H332211&. -/
theorem claim_C7_thm (name : String) (h1 h2 h3 h4 h5 h6 : Char)
    (hx1 : isHexChar h1 = true) (hx2 : isHexChar h2 = true)
    (hx3 : isHexChar h3 = true) (hx4 : isHexChar h4 = true)
    (hx5 : isHexChar h5 = true) (hx6 : isHexChar h6 = true) :
    ("BorderStyle=3".data <:+:
      (buildFinalStyle name none (some (String.mk ['#', h1, h2, h3, h4, h5, h6])) none).data) ∧
    ("Shadow=0".data <:+:
      (buildFinalStyle name none (some (String.mk ['#', h1, h2, h3, h4, h5, h6])) none).data) ∧
    (name ≠ "Deep Diver" →
      ("OutlineColour=&H".data ++ [h5, h6, h3, h4, h1, h2] ++ ['&']) <:+:
        (buildFinalStyle name none (some (String.mk ['#', h1, h2, h3, h4, h5, h6])) none).data) := by
  have hne := isHexChar_ne_hash hx1
  simp only [buildFinalStyle_bg_only]
  by_cases hK : name = "Karaoke"
  · subst hK
    rw [styleMapGet_Karaoke]
    simp only [bgResult_Karaoke h1 h2 h3 h4 h5 h6 hne]
    refine ⟨⟨"Alignment=10,Fontname=Nirmala UI,Fontsize=30,PrimaryColour=&H00FF00&,".data
        ++ ("OutlineColour=&H".data ++ [h5, h6, h3, h4, h1, h2] ++ ['&']) ++ ",".data,
        ",Outline=1,Shadow=0,MarginV=20".data, by rfl⟩,
      ⟨"Alignment=10,Fontname=Nirmala UI,Fontsize=30,PrimaryColour=&H00FF00&,".data
        ++ ("OutlineColour=&H".data ++ [h5, h6, h3, h4, h1, h2] ++ ['&'])
        ++ ",BorderStyle=3,Outline=1,".data,
        ",MarginV=20".data, by rfl⟩,
      fun _ => ⟨"Alignment=10,Fontname=Nirmala UI,Fontsize=30,PrimaryColour=&H00FF00&,".data,
        ",BorderStyle=3,Outline=1,Shadow=0,MarginV=20".data, by rfl⟩⟩
  · by_cases hD : name = "Deep Diver"
    · subst hD
      rw [styleMapGet_DeepDiver, bgResult_DeepDiver h1 h2 h3 h4 h5 h6 hne]
      exact ⟨by decide, by decide, fun hnd => absurd rfl hnd⟩
    · by_cases hM : name = "Mozi"
      · subst hM
        rw [styleMapGet_Mozi]
        simp only [bgResult_Mozi h1 h2 h3 h4 h5 h6 hne]
        refine ⟨⟨"Alignment=10,Fontname=Nirmala UI,Fontsize=30,PrimaryColour=&HFF00FF&,".data
            ++ ("OutlineColour=&H".data ++ [h5, h6, h3, h4, h1, h2] ++ ['&']) ++ ",".data,
            ",Outline=2,Shadow=0,MarginV=20".data, by rfl⟩,
          ⟨"Alignment=10,Fontname=Nirmala UI,Fontsize=30,PrimaryColour=&HFF00FF&,".data
            ++ ("OutlineColour=&H".data ++ [h5, h6, h3, h4, h1, h2] ++ ['&'])
            ++ ",BorderStyle=3,Outline=2,".data,
            ",MarginV=20".data, by rfl⟩,
          fun _ => ⟨"Alignment=10,Fontname=Nirmala UI,Fontsize=30,PrimaryColour=&HFF00FF&,".data,
            ",BorderStyle=3,Outline=2,Shadow=0,MarginV=20".data, by rfl⟩⟩
      · by_cases hG : name = "Glitch"
        · subst hG
          rw [styleMapGet_Glitch]
          simp only [bgResult_Glitch h1 h2 h3 h4 h5 h6 hne]
          refine ⟨⟨"Alignment=10,Fontname=Nirmala UI,Fontsize=30,PrimaryColour=&H0000FF&,".data
              ++ ("OutlineColour=&H".data ++ [h5, h6, h3, h4, h1, h2] ++ ['&']) ++ ",".data,
              ",Outline=1,Shadow=0,MarginV=20".data, by rfl⟩,
            ⟨"Alignment=10,Fontname=Nirmala UI,Fontsize=30,PrimaryColour=&H0000FF&,".data
              ++ ("OutlineColour=&H".data ++ [h5, h6, h3, h4, h1, h2] ++ ['&'])
              ++ ",BorderStyle=3,Outline=1,".data,
              ",MarginV=20".data, by rfl⟩,
            fun _ => ⟨"Alignment=10,Fontname=Nirmala UI,Fontsize=30,PrimaryColour=&H0000FF&,".data,
              ",BorderStyle=3,Outline=1,Shadow=0,MarginV=20".data, by rfl⟩⟩
        · by_cases hC : name = "Classic"
          · subst hC
            rw [styleMapGet_Classic]
            have h := classicBgParts h1 h2 h3 h4 h5 h6 hne
            exact ⟨h.1, h.2.1, fun _ => h.2.2⟩
          · rw [styleMapGet_other name hK hD hM hG hC]
            have h := classicBgParts h1 h2 h3 h4 h5 h6 hne
            exact ⟨h.1, h.2.1, fun _ => h.2.2⟩

/-- Concrete instantiation of `claim_C7_thm` at preset "Classic" and
bg_color "#112233": BorderStyle=3, Shadow=0, OutlineColour=&H332211&. -/
theorem claim_C7_thm_witness :
    ("BorderStyle=3".data <:+:
      (buildFinalStyle "Classic" none (some (String.mk ['#', '1', '1', '2', '2', '3', '3'])) none).data) ∧
    ("Shadow=0".data <:+:
      (buildFinalStyle "Classic" none (some (String.mk ['#', '1', '1', '2', '2', '3', '3'])) none).data) ∧
    ("OutlineColour=&H".data ++ ['3', '3', '2', '2', '1', '1'] ++ ['&'] <:+:
      (buildFinalStyle "Classic" none (some (String.mk ['#', '1', '1', '2', '2', '3', '3'])) none).data) :=
  have h := claim_C7_thm "Classic" '1' '1' '2' '2' '3' '3'
    (by decide) (by decide) (by decide) (by decide) (by decide) (by decide)
  ⟨h.1, h.2.1, h.2.2 (by decide)⟩
